import Mathlib

/-!
Verification of the GMAP web-client control and telemetry layer.

This file gives a shallow embedding of the JavaScript sources of the
repository (src/static/js/joystick.js, main.js, video.js and the map and
status modules) and proves or refutes the frozen specification claims
about them.  Numeric values are modelled as rationals (JavaScript numbers,
with floating-point rounding out of scope), timestamps as integers in
milliseconds, and each event-driven module as an explicit step function
from a state and an event to a new state together with the list of
commands or effects it emits.
-/

namespace GMAP

/-- JavaScript Math.round: round half toward positive infinity
(Math.round(q) = floor(q + 1/2) for all finite q). -/
def jsRound (q : ℚ) : ℤ := ⌊q + 1/2⌋

/-- Gesture sample delivered by the nipplejs 'move' callback: the raw
distance (data.distance, nonnegative) together with the cosine and sine of
data.angle.radian.  The trigonometric values are carried as rationals; the
faithfulness hypotheses 0 ≤ distance, |cosA| ≤ 1 and |sinA| ≤ 1 describe
exactly the values the library can produce. -/
structure GestureData where
  distance : ℚ
  cosA : ℚ
  sinA : ℚ
deriving DecidableEq

/-- Normalized magnitude, joystick.js line 45:
`const distance = Math.min(data.distance, 50) / 50`. -/
def normalizedDistance (d : ℚ) : ℚ := min d 50 / 50

/-- The x component before deadzone, joystick.js line 49 / 99:
`distance * Math.cos(angle)`. -/
def normX (g : GestureData) : ℚ := normalizedDistance g.distance * g.cosA

/-- The y component before deadzone, joystick.js line 50 / 100:
`distance * Math.sin(angle)`. -/
def normY (g : GestureData) : ℚ := normalizedDistance g.distance * g.sinA

/-- Per-axis deadzone, joystick.js lines 53-54:
`if (Math.abs(v) < 0.05) v = 0`. -/
def applyDeadzone (v : ℚ) : ℚ := if |v| < 1/20 then 0 else v

/-- The movement command computed by the Movement 'move' handler
(joystick.js lines 43-59): normalize, then deadzone each axis
independently. -/
def movementMoveCommand (g : GestureData) : ℚ × ℚ :=
  (applyDeadzone (normX g), applyDeadzone (normY g))

/-- The gimbal command computed by the Camera 'move' handler
(joystick.js lines 93-114): `pan = Math.round(80 + cameraX * 45)`,
`tilt = Math.round(40 - cameraY * 40)`.  No deadzone and no explicit
clamping appear in this handler. -/
def gimbalCommand (g : GestureData) : ℤ × ℤ :=
  (jsRound (80 + normX g * 45), jsRound (40 - normY g * 40))

/-- Clamping to integer bounds.  This definition follows the wording of
the specification (values clamped to the declared pan/tilt bounds); it is
compared against the command the source actually computes. -/
def clampInt (lo hi v : ℤ) : ℤ := max lo (min v hi)

section NumericLemmas

lemma normalizedDistance_nonneg {d : ℚ} (hd : 0 ≤ d) :
    0 ≤ normalizedDistance d := by
  unfold normalizedDistance
  positivity

lemma normalizedDistance_le_one (d : ℚ) : normalizedDistance d ≤ 1 := by
  unfold normalizedDistance
  have h : min d 50 ≤ 50 := min_le_right d 50
  linarith

lemma abs_normX_le {g : GestureData} (hd : 0 ≤ g.distance)
    (hc : |g.cosA| ≤ 1) : |normX g| ≤ 1 := by
  unfold normX
  rw [abs_mul]
  have h0 : 0 ≤ normalizedDistance g.distance := normalizedDistance_nonneg hd
  have h1 : normalizedDistance g.distance ≤ 1 := normalizedDistance_le_one _
  have h2 : |normalizedDistance g.distance| = normalizedDistance g.distance :=
    abs_of_nonneg h0
  rw [h2]
  calc normalizedDistance g.distance * |g.cosA|
      ≤ 1 * |g.cosA| := by
        apply mul_le_mul_of_nonneg_right h1 (abs_nonneg _)
    _ ≤ 1 * 1 := by
        apply mul_le_mul_of_nonneg_left hc (by norm_num)
    _ = 1 := by norm_num

lemma abs_normY_le {g : GestureData} (hd : 0 ≤ g.distance)
    (hs : |g.sinA| ≤ 1) : |normY g| ≤ 1 := by
  unfold normY
  rw [abs_mul]
  have h0 : 0 ≤ normalizedDistance g.distance := normalizedDistance_nonneg hd
  have h1 : normalizedDistance g.distance ≤ 1 := normalizedDistance_le_one _
  have h2 : |normalizedDistance g.distance| = normalizedDistance g.distance :=
    abs_of_nonneg h0
  rw [h2]
  calc normalizedDistance g.distance * |g.sinA|
      ≤ 1 * |g.sinA| := by
        apply mul_le_mul_of_nonneg_right h1 (abs_nonneg _)
    _ ≤ 1 * 1 := by
        apply mul_le_mul_of_nonneg_left hs (by norm_num)
    _ = 1 := by norm_num

lemma abs_applyDeadzone_le (v : ℚ) : |applyDeadzone v| ≤ |v| := by
  unfold applyDeadzone
  split
  · simp
  · exact le_refl _

lemma jsRound_ge {a : ℤ} {q : ℚ} (h : (a : ℚ) ≤ q) : a ≤ jsRound q := by
  unfold jsRound
  rw [Int.le_floor]
  linarith

lemma jsRound_le {b : ℤ} {q : ℚ} (h : q ≤ (b : ℚ)) : jsRound q ≤ b := by
  unfold jsRound
  have : (⌊q + 1/2⌋ : ℤ) < b + 1 := by
    rw [Int.floor_lt]
    push_cast
    linarith
  omega

lemma pan_bounds {x : ℚ} (hx : |x| ≤ 1) :
    35 ≤ jsRound (80 + x * 45) ∧ jsRound (80 + x * 45) ≤ 125 := by
  rw [abs_le] at hx
  constructor
  · apply jsRound_ge
    push_cast
    nlinarith [hx.1]
  · apply jsRound_le
    push_cast
    nlinarith [hx.2]

lemma tilt_bounds {y : ℚ} (hy : |y| ≤ 1) :
    0 ≤ jsRound (40 - y * 40) ∧ jsRound (40 - y * 40) ≤ 85 := by
  rw [abs_le] at hy
  constructor
  · apply jsRound_ge
    push_cast
    nlinarith [hy.2]
  · apply jsRound_le
    push_cast
    nlinarith [hy.1]

end NumericLemmas

/-! Movement control channel: joystick.js lines 43-76 together with the
connection flag handling of main.js lines 36-47 (the `connect` handler sets
`isConnected = true`, the `disconnect` handler sets `isConnected = false`
and does nothing else to the channel).  The throttle wrapper is
joystick.js lines 133-142: it keeps a `lastCall` timestamp and calls the
wrapped handler only when `now - lastCall >= limit`, updating `lastCall`;
otherwise the sample is discarded. -/

/-- A command emitted on the movement channel, with the timestamp of the
event that produced it.  `fromMove = true` marks emissions of the
throttled 'move' handler; `fromMove = false` marks the zero command of the
'end' handler. -/
structure MoveEmit where
  time : ℤ
  x : ℚ
  y : ℚ
  fromMove : Bool
deriving DecidableEq

/-- Module state relevant to the Movement channel: the shared connection
flag (main.js), the throttle closure state `lastCall` (initialized to 0),
and the module variables movementX / movementY. -/
structure MoveState where
  isConnected : Bool
  lastCall : ℤ
  movementX : ℚ
  movementY : ℚ
deriving DecidableEq

/-- Initial module state: `isConnected = false`, `lastCall = 0`,
`movementX = movementY = 0`. -/
def initMoveState : MoveState := ⟨false, 0, 0, 0⟩

/-- Events reaching the Movement channel: socket connect and disconnect,
and the joystick 'move' and 'end' callbacks.  Each callback carries its
arrival time; the 'end' handler never reads the clock, so its timestamp is
recorded for the trace only. -/
inductive MoveEvent where
  | connect
  | disconnect
  | move (now : ℤ) (g : GestureData)
  | gestureEnd (now : ℤ)
deriving DecidableEq

/-- One event step of the Movement channel.  'move' passes through the
50 ms throttle; when it passes, the handler recomputes movementX and
movementY from the current sample and emits only if connected.  'end'
resets the module variables and emits a zero command (unthrottled) only if
connected.  connect / disconnect only flip the flag. -/
def stepMove (st : MoveState) : MoveEvent → MoveState × List MoveEmit
  | .connect => ({st with isConnected := true}, [])
  | .disconnect => ({st with isConnected := false}, [])
  | .move now g =>
      if 50 ≤ now - st.lastCall then
        let c := movementMoveCommand g
        ({st with lastCall := now, movementX := c.1, movementY := c.2},
         if st.isConnected then [⟨now, c.1, c.2, true⟩] else [])
      else (st, [])
  | .gestureEnd now =>
      ({st with movementX := 0, movementY := 0},
       if st.isConnected then [⟨now, 0, 0, false⟩] else [])

/-- Run the Movement channel over a list of events, collecting every
emitted command in order. -/
def runMove (st : MoveState) : List MoveEvent → MoveState × List MoveEmit
  | [] => (st, [])
  | e :: es =>
      let p := stepMove st e
      let q := runMove p.1 es
      (q.1, p.2 ++ q.2)

/-! Camera control channel: joystick.js lines 93-124 with the same
connection flag, plus the Center button handler of main.js lines 111-121.
The camera 'move' handler is throttled at 100 ms, stores cameraX and
cameraY, and emits a gimbal command; the 'end' handler only logs
("Keep last position, don't reset"). -/

/-- Origin of a gimbal command: the throttled camera 'move' handler or the
explicit Center button. -/
inductive CamSrc where
  | fromMoveHandler
  | fromCenterButton
deriving DecidableEq

/-- A gimbal command emitted on the camera channel. -/
structure CamEmit where
  time : ℤ
  pan : ℤ
  tilt : ℤ
  src : CamSrc
deriving DecidableEq

/-- Module state relevant to the Camera channel. -/
structure CamState where
  isConnected : Bool
  lastCall : ℤ
  cameraX : ℚ
  cameraY : ℚ
deriving DecidableEq

/-- Initial camera state. -/
def initCamState : CamState := ⟨false, 0, 0, 0⟩

/-- Events reaching the Camera channel. -/
inductive CamEvent where
  | connect
  | disconnect
  | move (now : ℤ) (g : GestureData)
  | gestureEnd (now : ℤ)
  | centerButton (now : ℤ)
deriving DecidableEq

/-- One event step of the Camera channel.  The 'move' handler applies no
deadzone (joystick.js lines 93-118).  The 'end' handler does nothing but
log (lines 120-123).  The Center button emits pan = 80, tilt = 40 when
connected and only an advisory otherwise (main.js lines 111-121). -/
def stepCamera (st : CamState) : CamEvent → CamState × List CamEmit
  | .connect => ({st with isConnected := true}, [])
  | .disconnect => ({st with isConnected := false}, [])
  | .move now g =>
      if 100 ≤ now - st.lastCall then
        ({st with lastCall := now, cameraX := normX g, cameraY := normY g},
         if st.isConnected then
           [⟨now, (gimbalCommand g).1, (gimbalCommand g).2, .fromMoveHandler⟩]
         else [])
      else (st, [])
  | .gestureEnd _ => (st, [])
  | .centerButton now =>
      if st.isConnected then (st, [⟨now, 80, 40, .fromCenterButton⟩])
      else (st, [])

/-- Run the Camera channel over a list of events. -/
def runCamera (st : CamState) : List CamEvent → CamState × List CamEmit
  | [] => (st, [])
  | e :: es =>
      let p := stepCamera st e
      let q := runCamera p.1 es
      (q.1, p.2 ++ q.2)

/-! Session lifecycle.  main.js lines 25-57 configure the Socket.IO client
with `reconnectionAttempts: 10`, `reconnectionDelay: 1000`,
`reconnectionDelayMax: 5000` and install the connect / disconnect /
reconnect_attempt / reconnect_failed handlers; lines 158-166 install a
visibilitychange handler that calls `socket.connect()` whenever the page
becomes visible while not connected. -/

/-- The maximum number of automatic reconnection attempts,
main.js line 10: `const maxReconnectAttempts = 10`. -/
def maxReconnectAttempts : ℕ := 10

/-- Modelled from the spec: the delay before each automatic attempt of the
Socket.IO reconnection engine (the engine itself is library code, absent
from src/; the spec describes its policy as a fixed ~1 s delay capped at
~5 s, matching the configured reconnectionDelay 1000 and
reconnectionDelayMax 5000). -/
def reconnectDelayMs : ℕ := min 1000 5000

/-- Session lifecycle state: connected, an automatic attempt pending
(numbered from 1), or terminally failed after exhaustion. -/
inductive ConnState where
  | connected
  | reconnecting (pendingAttempt : ℕ)
  | failed
deriving DecidableEq

/-- Observable side effects of a session step: the engine scheduling an
automatic attempt after a delay, a manual `socket.connect()` call, and a
user-visible advisory. -/
inductive SessEffect where
  | autoAttempt (n : ℕ) (delayMs : ℕ)
  | manualConnect
  | notifyDanger (msg : String)
deriving DecidableEq

/-- Session state: the lifecycle state, the `isConnected` flag of main.js,
and the `reconnectAttempts` counter updated by the reconnect_attempt
handler. -/
structure SessState where
  conn : ConnState
  isConnected : Bool
  reconnectAttempts : ℕ
deriving DecidableEq

/-- Initial session state after a successful connect. -/
def initSessState : SessState := ⟨.connected, true, 0⟩

/-- Events driving the session model: loss of the underlying link, the
outcome of a pending automatic attempt, and the page becoming visible
(the visibilitychange handler of main.js lines 158-166).  There is no
operator retry control in the client; the advisory asks the user to
refresh the page. -/
inductive SessEvent where
  | linkLost
  | attemptResult (ok : Bool)
  | pageVisible
deriving DecidableEq

/-- One session step.  Modelled from the spec where the Socket.IO engine
is concerned (bounded attempts separated by the capped delay): on link
loss the disconnect handler clears `isConnected` and the engine schedules
attempt 1; a failed attempt below the bound schedules the next one; the
failure of attempt `maxReconnectAttempts` fires reconnect_failed, whose
handler (main.js lines 54-57) raises the danger advisory.  The
visibilitychange handler (main.js lines 158-166) calls `socket.connect()`
whenever the page becomes visible and `isConnected` is false, in every
lifecycle state including failed. -/
def stepSession (st : SessState) : SessEvent → SessState × List SessEffect
  | .linkLost =>
      match st.conn with
      | .connected =>
          (⟨.reconnecting 1, false, 1⟩, [.autoAttempt 1 reconnectDelayMs])
      | _ => (st, [])
  | .attemptResult ok =>
      match st.conn with
      | .reconnecting k =>
          if ok then (⟨.connected, true, 0⟩, [])
          else if k < maxReconnectAttempts then
            (⟨.reconnecting (k + 1), false, k + 1⟩,
             [.autoAttempt (k + 1) reconnectDelayMs])
          else
            (⟨.failed, false, k⟩,
             [.notifyDanger "Connection failed. Please refresh the page."])
      | _ => (st, [])
  | .pageVisible =>
      if st.isConnected then (st, []) else (st, [.manualConnect])

/-- Run the session model over a list of events. -/
def runSession (st : SessState) : List SessEvent → SessState × List SessEffect
  | [] => (st, [])
  | e :: es =>
      let p := stepSession st e
      let q := runSession p.1 es
      (q.1, p.2 ++ q.2)

/-! Video pipeline: src/static/js/video.js.  The video_frame handler sets
the streaming flag, replaces the displayed frame for either recognized
payload shape (plain string, or object with a `data` field) and then runs
the FPS estimator; an unrecognized shape is logged and returns early.  The
video_error handler clears the flag and shows the no-signal placeholder. -/

/-- What the video element currently shows. -/
inductive VideoSrc where
  | initialImage
  | framePayload (payload : String)
  | noSignal
deriving DecidableEq

/-- Payload shapes of a video_frame event (video.js lines 39-46): a plain
base64 string, or an object whose `data` field holds the base64 string
(`objPayload none` stands for any other, unrecognized shape). -/
inductive VideoData where
  | strPayload (s : String)
  | objPayload (payload : Option String)
deriving DecidableEq

/-- Video module state: the streaming flag, the displayed source, and the
FPS estimator variables frameCount / lastFpsUpdateTime / fps. -/
structure VideoState where
  isStreaming : Bool
  src : VideoSrc
  frameCount : ℕ
  lastFpsUpdateTime : ℤ
  fps : ℤ
deriving DecidableEq

/-- Initial video state: not streaming, the static no-signal image from
the page template, all counters zero. -/
def initVideoState : VideoState := ⟨false, .initialImage, 0, 0, 0⟩

/-- Observable effects of the video module: notifications, the FPS display
update, and the update_fps event sent back to the server. -/
inductive VideoEffect where
  | notif (msg : String) (sev : String)
  | showFpsUI (v : ℤ)
  | emitUpdateFps (v : ℤ)
deriving DecidableEq

/-- The FPS estimator, video.js lines 66-91 (timestamps in integer
milliseconds): increment the frame counter; once at least 1000 ms have
elapsed since the window start, compute
`fps = Math.round(frameCount * 1000 / elapsed)`, show it, reset the
counter and the window start, and send update_fps when connected. -/
def updateFps (connected : Bool) (st : VideoState) (now : ℤ) :
    VideoState × List VideoEffect :=
  let fc := st.frameCount + 1
  let elapsed := now - st.lastFpsUpdateTime
  if 1000 ≤ elapsed then
    let f := jsRound ((fc : ℚ) * 1000 / (elapsed : ℚ))
    ({st with frameCount := 0, lastFpsUpdateTime := now, fps := f},
     [.showFpsUI f] ++ (if connected then [.emitUpdateFps f] else []))
  else
    ({st with frameCount := fc}, [])

/-- Events reaching the video module. -/
inductive VideoEvent where
  | videoFrame (now : ℤ) (data : VideoData)
  | videoError (msg : String)
deriving DecidableEq

/-- One step of the video module (video.js lines 28-59).  A frame first
sets the streaming flag (notifying on the transition), then replaces the
displayed source for either recognized payload shape and updates the FPS
estimator; an unrecognized shape returns early.  video_error clears the
flag, raises a danger advisory and shows the no-signal placeholder. -/
def stepVideo (connected : Bool) (st : VideoState) :
    VideoEvent → VideoState × List VideoEffect
  | .videoFrame now data =>
      let startEff : List VideoEffect :=
        if st.isStreaming then [] else [.notif "Video streaming started" "success"]
      let st1 := {st with isStreaming := true}
      match data with
      | .strPayload s =>
          let r := updateFps connected {st1 with src := .framePayload s} now
          (r.1, startEff ++ r.2)
      | .objPayload (some p) =>
          let r := updateFps connected {st1 with src := .framePayload p} now
          (r.1, startEff ++ r.2)
      | .objPayload none => (st1, startEff)
  | .videoError msg =>
      ({st with isStreaming := false, src := .noSignal},
       [.notif ("Video error: " ++ msg) "danger"])

/-- Run the video module over a list of events with a fixed connection
flag. -/
def runVideo (connected : Bool) (st : VideoState) :
    List VideoEvent → VideoState × List VideoEffect
  | [] => (st, [])
  | e :: es =>
      let p := stepVideo connected st e
      let q := runVideo connected p.1 es
      (q.1, p.2 ++ q.2)

/-- Run only the FPS estimator over a list of frame timestamps. -/
def runFps (connected : Bool) (st : VideoState) :
    List ℤ → VideoState × List VideoEffect
  | [] => (st, [])
  | t :: ts =>
      let p := updateFps connected st t
      let q := runFps connected p.1 ts
      (q.1, p.2 ++ q.2)

/-- Twenty frame timestamps delivered evenly over 1000 ms starting at the
window start 0: 50, 100, ..., 1000. -/
def evenFrameTimes : List ℤ := (List.range 20).map (fun k => ((k : ℤ) + 1) * 50)

/-! Map module: the map.js source (present twice among the unnamed source
files, with identical updateMaps / updateRobotPosition control flow).
`updateMaps` applies the 2D image, the 3D point cloud and the robot pose
independently; the robot pose is applied only when the event carries both
`position` and `orientation`. -/

/-- A 3-component position as sent in map_update.position. -/
structure Vec3 where
  x : ℚ
  y : ℚ
  z : ℚ
deriving DecidableEq

/-- Euler angles in degrees as sent in map_update.orientation. -/
structure EulerAngles where
  roll : ℚ
  pitch : ℚ
  yaw : ℚ
deriving DecidableEq

/-- A colored point of the 3D point cloud payload. -/
structure CloudPoint where
  x : ℚ
  y : ℚ
  z : ℚ
  r : ℚ
  g : ℚ
  b : ℚ
deriving DecidableEq

/-- A point as placed in the 3D scene: mesh position
`(p.x, p.z, -p.y)` (the axis remap commented "Adjust for Three.js
coordinate system") and color components divided by 255. -/
structure RenderedPoint where
  px : ℚ
  py : ℚ
  pz : ℚ
  colR : ℚ
  colG : ℚ
  colB : ℚ
deriving DecidableEq

/-- The per-point rendering of updateMap3D. -/
def renderPoint (p : CloudPoint) : RenderedPoint :=
  ⟨p.x, p.z, -p.y, p.r / 255, p.g / 255, p.b / 255⟩

/-- The 3D robot model pose as set by updateRobotPosition: position
(x, -y) on the horizontal plane and the rotation angles; the rotations are
converted with THREE.MathUtils.degToRad at render time, a fixed linear
map, so the pose is recorded in degrees. -/
structure RobotPose where
  posX : ℚ
  posZ : ℚ
  rotPitchDeg : ℚ
  rotYawDeg : ℚ
  rotRollDeg : ℚ
deriving DecidableEq

/-- The robot marker drawn on the 2D canvas: its center
`(w/2 + x*20, h/2 - y*20)` and the yaw used for the direction line. -/
structure Marker2D where
  centerX : ℚ
  centerY : ℚ
  yawDeg : ℚ
deriving DecidableEq

/-- Payload of a map_update event; every component is optional (a missing
or falsy field fails the corresponding truthiness guard in updateMaps). -/
structure MapUpdateData where
  map_2d : Option String
  map_3d : Option (List CloudPoint)
  position : Option Vec3
  orientation : Option EulerAngles
deriving DecidableEq

/-- Display-side state of the map module: which rendering resources exist
(the canvas, the 3D scene, the robot model), the displayed 2D image, the
rendered point cloud, the robot pose and the 2D marker. -/
structure MapDisplay where
  hasCanvas : Bool
  canvasW : ℚ
  canvasH : ℚ
  hasScene : Bool
  hasRobotModel : Bool
  map2dImage : Option String
  points3d : List RenderedPoint
  robot : RobotPose
  marker : Option Marker2D
deriving DecidableEq

/-- updateMap2D: draw the base64 image onto the canvas (the displayed
image becomes the payload). -/
def updateMap2D (mapData : String) (s : MapDisplay) : MapDisplay :=
  {s with map2dImage := some mapData}

/-- updateMap3D: replace the point cloud with the rendered new points. -/
def updateMap3D (pts : List CloudPoint) (s : MapDisplay) : MapDisplay :=
  {s with points3d := pts.map renderPoint}

/-- updateRobotPosition: return unchanged when the robot model is absent;
otherwise set the model pose, and redraw the 2D marker when the canvas
exists (setting the model pose leaves the canvas and its dimensions
untouched, so the marker guard and coordinates read the same values as in
the source). -/
def updateRobotPosition (p : Vec3) (o : EulerAngles) (s : MapDisplay) :
    MapDisplay :=
  if s.hasRobotModel = false then s
  else if s.hasCanvas then
    {s with robot := ⟨p.x, -p.y, o.pitch, o.yaw, o.roll⟩,
            marker := some ⟨s.canvasW / 2 + p.x * 20,
                            s.canvasH / 2 - p.y * 20, o.yaw⟩}
  else {s with robot := ⟨p.x, -p.y, o.pitch, o.yaw, o.roll⟩}

/-- updateMaps: apply the 2D component when present and the canvas exists,
the 3D component when present and the scene exists, and the robot pose
only when both position and orientation are present. -/
def updateMaps (d : MapUpdateData) (s : MapDisplay) : MapDisplay :=
  let s1 := match d.map_2d with
    | some m => if s.hasCanvas then updateMap2D m s else s
    | none => s
  let s2 := match d.map_3d with
    | some pts => if s1.hasScene then updateMap3D pts s1 else s1
    | none => s1
  match d.position, d.orientation with
  | some p, some o => updateRobotPosition p o s2
  | _, _ => s2

/-! Shared concrete facts used when instantiating theorems with
hypotheses at concrete inputs. -/

lemma q_zero_le_fifty : (0 : ℚ) ≤ 50 := by norm_num

lemma q_abs_one_le : |(1 : ℚ)| ≤ 1 := by norm_num

lemma q_abs_zero_le : |(0 : ℚ)| ≤ 1 := by norm_num

lemma q_abs_zero_lt_deadzone : |(0 : ℚ)| < 1/20 := by norm_num

lemma q_abs_one_not_lt_deadzone : ¬ |(1 : ℚ)| < 1/20 := by norm_num

lemma normX_small_sample : |normX ⟨0, 1, 0⟩| < 1/20 := by
  norm_num [normX, normalizedDistance, min_def]

lemma normY_small_sample : |normY ⟨0, 1, 0⟩| < 1/20 := by
  norm_num [normY, normalizedDistance, min_def]

lemma clampInt_of_le {lo hi v : ℤ} (h1 : lo ≤ v) (h2 : v ≤ hi) :
    clampInt lo hi v = v := by
  unfold clampInt
  omega

/-! Claim C4: deadzone. -/

/-- Claim C4, counterexample.  The claim states that on BOTH control
channels every normalized axis component below 0.05 in absolute value is
zeroed before a command is derived.  For the Camera channel this is false:
the sample with raw distance 2 and angle 0 rad has normalized
x = 0.04 < 0.05 and y = 0, yet the emitted gimbal command is
pan = round(80 + 0.04·45) = 82, not the centered pan = 80 that a zeroed
component would produce — the camera 'move' handler applies no deadzone. -/
theorem c4_counterexample :
    |normX ⟨2, 1, 0⟩| < 1/20 ∧ |normY ⟨2, 1, 0⟩| < 1/20
    ∧ gimbalCommand ⟨2, 1, 0⟩ = (82, 40)
    ∧ gimbalCommand ⟨2, 1, 0⟩ ≠ (80, 40) := by
  have hx : normX ⟨2, 1, 0⟩ = 1/25 := by
    norm_num [normX, normalizedDistance, min_def]
  have hy : normY ⟨2, 1, 0⟩ = 0 := by
    norm_num [normY, normalizedDistance, min_def]
  refine ⟨?_, ?_, ?_, ?_⟩
  · rw [hx]
    norm_num [abs_lt]
  · rw [hy]
    norm_num
  · unfold gimbalCommand
    rw [hx, hy]
    norm_num [jsRound]
  · unfold gimbalCommand
    rw [hx, hy]
    norm_num [jsRound]

/-- Claim C4, amended: on the Movement channel (only), each normalized
axis component with absolute value below 0.05 is independently forced to
zero before the command is derived, and a gesture sample with both
components below the deadzone yields exactly the command (0, 0); the
Camera channel applies no deadzone. -/
theorem c4_amended :
    (∀ v : ℚ, |v| < 1/20 → applyDeadzone v = 0)
    ∧ (∀ v : ℚ, ¬ |v| < 1/20 → applyDeadzone v = v)
    ∧ (∀ g : GestureData, movementMoveCommand g
        = (applyDeadzone (normX g), applyDeadzone (normY g)))
    ∧ (∀ g : GestureData, |normX g| < 1/20 → |normY g| < 1/20 →
        movementMoveCommand g = (0, 0)) := by
  refine ⟨?_, ?_, ?_, ?_⟩
  · intro v h
    unfold applyDeadzone
    rw [if_pos h]
  · intro v h
    unfold applyDeadzone
    rw [if_neg h]
  · intro g
    rfl
  · intro g h1 h2
    unfold movementMoveCommand applyDeadzone
    rw [if_pos h1, if_pos h2]

/-- Witness for c4_amended at concrete inputs. -/
theorem c4_amended_witness :
    applyDeadzone 0 = 0 ∧ applyDeadzone 1 = 1
    ∧ movementMoveCommand ⟨0, 1, 0⟩ = (0, 0) :=
  ⟨c4_amended.1 0 q_abs_zero_lt_deadzone,
   c4_amended.2.1 1 q_abs_one_not_lt_deadzone,
   c4_amended.2.2.2 ⟨0, 1, 0⟩ normX_small_sample normY_small_sample⟩

/-! Claim C5: camera gimbal mapping. -/

/-- The gimbal command of the maximal sample at angle 0 rad. -/
lemma gimbalCommand_max_sample : gimbalCommand ⟨50, 1, 0⟩ = (125, 40) := by
  norm_num [gimbalCommand, normX, normY, normalizedDistance, jsRound, min_def]

/-- Claim C5: for every camera gesture sample the emitted gimbal command
equals pan = round(80 + x·45) and tilt = round(40 − y·40) clamped to
pan ∈ [35, 125], tilt ∈ [0, 85] (the computed values are always within
those bounds, so the clamp is the identity on them), and the maximal
sample at angle 0 rad yields pan = 125, tilt = 40. -/
theorem c5_gimbal_mapping :
    (∀ d c s : ℚ, 0 ≤ d → |c| ≤ 1 → |s| ≤ 1 →
      gimbalCommand ⟨d, c, s⟩
        = (clampInt 35 125 (jsRound (80 + normX ⟨d, c, s⟩ * 45)),
           clampInt 0 85 (jsRound (40 - normY ⟨d, c, s⟩ * 40))))
    ∧ gimbalCommand ⟨50, 1, 0⟩ = (125, 40) := by
  constructor
  · intro d c s hd hc hs
    have hx := abs_normX_le (g := ⟨d, c, s⟩) hd hc
    have hy := abs_normY_le (g := ⟨d, c, s⟩) hd hs
    have hp := pan_bounds hx
    have ht := tilt_bounds hy
    unfold gimbalCommand
    rw [clampInt_of_le hp.1 hp.2, clampInt_of_le ht.1 ht.2]
  · exact gimbalCommand_max_sample

/-- Witness for c5_gimbal_mapping at the maximal sample. -/
theorem c5_gimbal_mapping_witness :
    gimbalCommand ⟨50, 1, 0⟩
      = (clampInt 35 125 (jsRound (80 + normX ⟨50, 1, 0⟩ * 45)),
         clampInt 0 85 (jsRound (40 - normY ⟨50, 1, 0⟩ * 40))) :=
  c5_gimbal_mapping.1 50 1 0 q_zero_le_fifty q_abs_one_le q_abs_zero_le

/-! Claim C9: every transmitted control command is within its declared
bounds. -/

/-- Claim C9: for every raw gesture sample (any nonnegative distance, any
angle), the normalized magnitude lies in [0, 1] because the raw distance
is clamped to the 50-pixel reference radius before division, every
movement command emitted by the 'move' or 'end' handler has
x ∈ [-1, 1] and y ∈ [-1, 1], and every gimbal command emitted by the
camera 'move' handler has pan ∈ [35, 125] and tilt ∈ [0, 85]. -/
theorem c9_bounds :
    ∀ d c s : ℚ, 0 ≤ d → |c| ≤ 1 → |s| ≤ 1 →
      (0 ≤ normalizedDistance d ∧ normalizedDistance d ≤ 1)
      ∧ (∀ (st : MoveState) (now : ℤ),
          ∀ em ∈ (stepMove st (.move now ⟨d, c, s⟩)).2,
            |em.x| ≤ 1 ∧ |em.y| ≤ 1)
      ∧ (∀ (st : MoveState) (now : ℤ),
          ∀ em ∈ (stepMove st (.gestureEnd now)).2,
            |em.x| ≤ 1 ∧ |em.y| ≤ 1)
      ∧ (∀ (cst : CamState) (now : ℤ),
          ∀ em ∈ (stepCamera cst (.move now ⟨d, c, s⟩)).2,
            35 ≤ em.pan ∧ em.pan ≤ 125 ∧ 0 ≤ em.tilt ∧ em.tilt ≤ 85) := by
  intro d c s hd hc hs
  have hx : |normX ⟨d, c, s⟩| ≤ 1 := abs_normX_le hd hc
  have hy : |normY ⟨d, c, s⟩| ≤ 1 := abs_normY_le hd hs
  refine ⟨⟨normalizedDistance_nonneg hd, normalizedDistance_le_one d⟩, ?_, ?_, ?_⟩
  · intro st now em hem
    simp only [stepMove] at hem
    split at hem
    · split at hem
      · simp only [List.mem_singleton] at hem
        subst hem
        exact ⟨le_trans (abs_applyDeadzone_le _) hx,
               le_trans (abs_applyDeadzone_le _) hy⟩
      · simp at hem
    · simp at hem
  · intro st now em hem
    simp only [stepMove] at hem
    split at hem
    · simp only [List.mem_singleton] at hem
      subst hem
      norm_num
    · simp at hem
  · intro cst now em hem
    simp only [stepCamera] at hem
    split at hem
    · split at hem
      · simp only [List.mem_singleton] at hem
        subst hem
        have hp := pan_bounds hx
        have ht := tilt_bounds hy
        exact ⟨hp.1, hp.2, ht.1, ht.2⟩
      · simp at hem
    · simp at hem

/-- The command emitted for the maximal sample at angle 0 rad on a
connected movement channel whose throttle interval has elapsed. -/
lemma stepMove_sample_emits :
    (stepMove ⟨true, 0, 0, 0⟩ (.move 1000 ⟨50, 1, 0⟩)).2
      = [⟨1000, 1, 0, true⟩] := by
  have h1 : movementMoveCommand ⟨50, 1, 0⟩ = (1, 0) := by
    unfold movementMoveCommand applyDeadzone
    norm_num [normX, normY, normalizedDistance, min_def]
  simp only [stepMove, h1]
  norm_num

/-- Witness for c9_bounds at the maximal sample. -/
theorem c9_bounds_witness :
    (0 ≤ normalizedDistance 50 ∧ normalizedDistance 50 ≤ 1)
    ∧ (|MoveEmit.x ⟨1000, 1, 0, true⟩| ≤ 1 ∧ |MoveEmit.y ⟨1000, 1, 0, true⟩| ≤ 1) :=
  ⟨(c9_bounds 50 1 0 q_zero_le_fifty q_abs_one_le q_abs_zero_le).1,
   (c9_bounds 50 1 0 q_zero_le_fifty q_abs_one_le q_abs_zero_le).2.1
     ⟨true, 0, 0, 0⟩ 1000 ⟨1000, 1, 0, true⟩
     (by rw [stepMove_sample_emits]; exact List.mem_singleton.mpr rfl)⟩

/-! Claim C10: robot pose applied only when both position and orientation
are present; map components of the same event applied independently. -/

lemma updateRobotPosition_map2dImage (p : Vec3) (o : EulerAngles)
    (s : MapDisplay) :
    (updateRobotPosition p o s).map2dImage = s.map2dImage := by
  unfold updateRobotPosition
  split
  · rfl
  · split <;> rfl

lemma updateRobotPosition_points3d (p : Vec3) (o : EulerAngles)
    (s : MapDisplay) :
    (updateRobotPosition p o s).points3d = s.points3d := by
  unfold updateRobotPosition
  split
  · rfl
  · split <;> rfl

lemma updateRobotPosition_hasCanvas (p : Vec3) (o : EulerAngles)
    (s : MapDisplay) :
    (updateRobotPosition p o s).hasCanvas = s.hasCanvas := by
  unfold updateRobotPosition
  split
  · rfl
  · split <;> rfl

lemma updateMap2D_hasScene (m : String) (s : MapDisplay) :
    (updateMap2D m s).hasScene = s.hasScene := rfl

/-- Claim C10: for every map_update event, the robot indicator (3D model
pose and 2D marker) is updated only when the event carries both a
position and an orientation; if either is absent the robot indicator is
left completely unchanged, while the 2D image and the 3D point cloud are
still applied independently (each exactly when its own payload is present
and its rendering resource exists, regardless of the pose fields). -/
theorem c10_pose_gating :
    ∀ (d : MapUpdateData) (s : MapDisplay),
      ((d.position = none ∨ d.orientation = none) →
        (updateMaps d s).robot = s.robot ∧ (updateMaps d s).marker = s.marker)
      ∧ (updateMaps d s).map2dImage
          = (match d.map_2d with
             | some m => if s.hasCanvas then some m else s.map2dImage
             | none => s.map2dImage)
      ∧ (updateMaps d s).points3d
          = (match d.map_3d with
             | some pts => if s.hasScene then pts.map renderPoint else s.points3d
             | none => s.points3d) := by
  intro d s
  obtain ⟨m2, m3, pos, ori⟩ := d
  refine ⟨?_, ?_, ?_⟩
  · rintro (h | h) <;> simp only at h
    · subst h
      rcases ori with _ | o <;> rcases m2 with _ | m <;>
        rcases m3 with _ | pts <;>
          simp only [updateMaps, updateMap2D, updateMap3D] <;>
            (try split_ifs) <;> simp
    · subst h
      rcases pos with _ | p <;> rcases m2 with _ | m <;>
        rcases m3 with _ | pts <;>
          simp only [updateMaps, updateMap2D, updateMap3D] <;>
            (try split_ifs) <;> simp
  · rcases pos with _ | p <;> rcases ori with _ | o <;>
      rcases m2 with _ | m <;> rcases m3 with _ | pts <;>
        simp only [updateMaps, updateMap2D, updateMap3D,
          updateRobotPosition_map2dImage] <;>
          (try split_ifs) <;>
            simp_all [updateMap2D, updateMap3D, updateRobotPosition_map2dImage]
  · rcases pos with _ | p <;> rcases ori with _ | o <;>
      rcases m2 with _ | m <;> rcases m3 with _ | pts <;>
        simp only [updateMaps, updateMap2D, updateMap3D,
          updateRobotPosition_points3d] <;>
          (try split_ifs) <;>
            simp_all [updateMap2D, updateMap3D, updateRobotPosition_points3d]

/-- Witness for c10_pose_gating on a concrete event carrying a 2D map but
no orientation. -/
theorem c10_pose_gating_witness :
    (updateMaps ⟨some "mapimg", none, some ⟨1, 2, 0⟩, none⟩
        ⟨true, 200, 100, true, true, none, [], ⟨0, 0, 0, 0, 0⟩, none⟩).robot
      = MapDisplay.robot ⟨true, 200, 100, true, true, none, [], ⟨0, 0, 0, 0, 0⟩, none⟩
    ∧ (updateMaps ⟨some "mapimg", none, some ⟨1, 2, 0⟩, none⟩
        ⟨true, 200, 100, true, true, none, [], ⟨0, 0, 0, 0, 0⟩, none⟩).marker
      = MapDisplay.marker ⟨true, 200, 100, true, true, none, [], ⟨0, 0, 0, 0, 0⟩, none⟩ :=
  (c10_pose_gating ⟨some "mapimg", none, some ⟨1, 2, 0⟩, none⟩
      ⟨true, 200, 100, true, true, none, [], ⟨0, 0, 0, 0, 0⟩, none⟩).1
    (Or.inr rfl)

/-! Claim C7: video_error shows the placeholder and clears the streaming
flag, but nothing protects the placeholder from later frames. -/

/-- Claim C7, counterexample.  The first conjuncts of the claim hold
(after video_error the placeholder is shown and the flag cleared), but its
"regardless of subsequent late-arriving stale video frames" part is false:
in the run below, the last frame models a frame captured before the error
and delivered after it; the handler has no staleness tracking, so this
frame replaces the placeholder and re-sets the streaming flag. -/
theorem c7_counterexample :
    (runVideo true initVideoState
        [.videoFrame 1000 (.strPayload "frameA"), .videoError "signal lost",
         .videoFrame 1100 (.strPayload "frameB")]).1.src
      = .framePayload "frameB"
    ∧ (runVideo true initVideoState
        [.videoFrame 1000 (.strPayload "frameA"), .videoError "signal lost",
         .videoFrame 1100 (.strPayload "frameB")]).1.isStreaming = true := by
  norm_num [runVideo, stepVideo, updateFps, initVideoState, jsRound]

/-- Claim C7, amended: on video_error the displayed frame is replaced by
the no-signal placeholder, the streaming flag is set to false and a danger
advisory is raised; however EVERY subsequently delivered video_frame of a
recognized shape — stale or not — replaces the displayed source and sets
the streaming flag back to true (the pipeline keeps no staleness
information). -/
theorem c7_amended :
    (∀ (conn : Bool) (st : VideoState) (msg : String),
      stepVideo conn st (.videoError msg)
        = ({st with isStreaming := false, src := .noSignal},
           [.notif ("Video error: " ++ msg) "danger"]))
    ∧ (∀ (conn : Bool) (st : VideoState) (now : ℤ) (s : String),
      (stepVideo conn st (.videoFrame now (.strPayload s))).1.src
          = .framePayload s
      ∧ (stepVideo conn st (.videoFrame now (.strPayload s))).1.isStreaming
          = true
      ∧ (stepVideo conn st (.videoFrame now (.objPayload (some s)))).1.src
          = .framePayload s
      ∧ (stepVideo conn st
          (.videoFrame now (.objPayload (some s)))).1.isStreaming = true) := by
  constructor
  · intro conn st msg
    rfl
  · intro conn st now s
    refine ⟨?_, ?_, ?_, ?_⟩ <;>
      simp only [stepVideo, updateFps] <;> split <;> rfl

/-! Claim C8: the FPS metric. -/

/-- Claim C8: the FPS estimator is a fixed-window counter.  On the first
frame once at least 1000 ms have elapsed since the window start it
computes fps = round(count · 1000 / elapsed) over the incremented count,
resets the counter and the window start, shows the value and (when
connected) sends it back in an update_fps event; a frame inside the
window only increments the counter; and for exactly 20 frames delivered
evenly over 1000 ms the reported fps is 20. -/
theorem c8_fps :
    (∀ (conn : Bool) (st : VideoState) (now : ℤ),
      1000 ≤ now - st.lastFpsUpdateTime →
        (updateFps conn st now).1.fps
            = jsRound (((st.frameCount + 1 : ℕ) : ℚ) * 1000
                / ((now - st.lastFpsUpdateTime : ℤ) : ℚ))
        ∧ (updateFps conn st now).1.frameCount = 0
        ∧ (updateFps conn st now).1.lastFpsUpdateTime = now
        ∧ (updateFps conn st now).2
            = [.showFpsUI ((updateFps conn st now).1.fps)]
              ++ (if conn then
                    [.emitUpdateFps ((updateFps conn st now).1.fps)]
                  else []))
    ∧ (∀ (conn : Bool) (st : VideoState) (now : ℤ),
      now - st.lastFpsUpdateTime < 1000 →
        (updateFps conn st now).1 = {st with frameCount := st.frameCount + 1}
        ∧ (updateFps conn st now).2 = [])
    ∧ ((runFps true initVideoState evenFrameTimes).1.fps = 20
        ∧ (runFps true initVideoState evenFrameTimes).2
            = [.showFpsUI 20, .emitUpdateFps 20]) := by
  refine ⟨?_, ?_, ?_⟩
  · intro conn st now h
    simp only [updateFps]
    rw [if_pos h]
    refine ⟨rfl, rfl, rfl, rfl⟩
  · intro conn st now h
    simp only [updateFps]
    rw [if_neg (by omega)]
    exact ⟨rfl, rfl⟩
  · constructor <;>
      norm_num [runFps, updateFps, evenFrameTimes, initVideoState, jsRound,
        List.range_succ]

/-- Witness for c8_fps: a window of 19 counted frames closed by a frame
at 1000 ms, and a frame inside a fresh window. -/
theorem c8_fps_witness :
    ((updateFps true ⟨true, .initialImage, 19, 0, 0⟩ 1000).1.fps
        = jsRound ((((19 : ℕ) + 1 : ℕ) : ℚ) * 1000 / ((1000 - 0 : ℤ) : ℚ))
      ∧ (updateFps true ⟨true, .initialImage, 19, 0, 0⟩ 1000).1.frameCount = 0
      ∧ (updateFps true ⟨true, .initialImage, 19, 0, 0⟩ 1000).1.lastFpsUpdateTime
          = 1000
      ∧ (updateFps true ⟨true, .initialImage, 19, 0, 0⟩ 1000).2
          = [.showFpsUI ((updateFps true ⟨true, .initialImage, 19, 0, 0⟩ 1000).1.fps)]
            ++ (if true then
                  [.emitUpdateFps
                    ((updateFps true ⟨true, .initialImage, 19, 0, 0⟩ 1000).1.fps)]
                else []))
    ∧ ((updateFps true ⟨true, .initialImage, 0, 1000, 0⟩ 1100).1
          = {(⟨true, .initialImage, 0, 1000, 0⟩ : VideoState) with frameCount := 0 + 1}
      ∧ (updateFps true ⟨true, .initialImage, 0, 1000, 0⟩ 1100).2 = []) :=
  ⟨c8_fps.1 true ⟨true, .initialImage, 19, 0, 0⟩ 1000 (by decide),
   c8_fps.2.1 true ⟨true, .initialImage, 0, 1000, 0⟩ 1100 (by decide)⟩

/-! Claim C6: bounded reconnection. -/

/-- The state invariant of the session model: a pending automatic attempt
is numbered between 1 and the configured bound. -/
def sessInv (st : SessState) : Prop :=
  ∀ k, st.conn = .reconnecting k → 1 ≤ k ∧ k ≤ maxReconnectAttempts

lemma stepSession_linkLost_connected (isC : Bool) (ra : ℕ) :
    stepSession ⟨.connected, isC, ra⟩ .linkLost
      = (⟨.reconnecting 1, false, 1⟩, [.autoAttempt 1 reconnectDelayMs]) := rfl

lemma stepSession_linkLost_reconnecting (j : ℕ) (isC : Bool) (ra : ℕ) :
    stepSession ⟨.reconnecting j, isC, ra⟩ .linkLost
      = (⟨.reconnecting j, isC, ra⟩, []) := rfl

lemma stepSession_linkLost_failed (isC : Bool) (ra : ℕ) :
    stepSession ⟨.failed, isC, ra⟩ .linkLost
      = (⟨.failed, isC, ra⟩, []) := rfl

lemma stepSession_attempt_connected (ok : Bool) (isC : Bool) (ra : ℕ) :
    stepSession ⟨.connected, isC, ra⟩ (.attemptResult ok)
      = (⟨.connected, isC, ra⟩, []) := by
  cases ok <;> rfl

lemma stepSession_attempt_ok (j : ℕ) (isC : Bool) (ra : ℕ) :
    stepSession ⟨.reconnecting j, isC, ra⟩ (.attemptResult true)
      = (⟨.connected, true, 0⟩, []) := rfl

lemma stepSession_attempt_fail (j : ℕ) (isC : Bool) (ra : ℕ) :
    stepSession ⟨.reconnecting j, isC, ra⟩ (.attemptResult false)
      = if j < maxReconnectAttempts then
          (⟨.reconnecting (j + 1), false, j + 1⟩,
           [.autoAttempt (j + 1) reconnectDelayMs])
        else
          (⟨.failed, false, j⟩,
           [.notifyDanger "Connection failed. Please refresh the page."]) := rfl

lemma stepSession_attempt_failed_state (ok : Bool) (isC : Bool) (ra : ℕ) :
    stepSession ⟨.failed, isC, ra⟩ (.attemptResult ok)
      = (⟨.failed, isC, ra⟩, []) := by
  cases ok <;> rfl

lemma stepSession_pageVisible (st : SessState) :
    stepSession st .pageVisible
      = if st.isConnected then (st, []) else (st, [.manualConnect]) := rfl

lemma stepSession_inv {st : SessState} (hinv : sessInv st) (e : SessEvent) :
    sessInv (stepSession st e).1 := by
  obtain ⟨conn, isC, ra⟩ := st
  cases e with
  | linkLost =>
      cases conn with
      | connected =>
          rw [stepSession_linkLost_connected]
          intro k hk
          cases hk
          exact ⟨le_refl 1, by norm_num [maxReconnectAttempts]⟩
      | reconnecting j =>
          rw [stepSession_linkLost_reconnecting]
          exact hinv
      | failed =>
          rw [stepSession_linkLost_failed]
          exact hinv
  | attemptResult ok =>
      cases conn with
      | connected =>
          rw [stepSession_attempt_connected]
          exact hinv
      | reconnecting j =>
          have hj := hinv j rfl
          cases ok with
          | true =>
              rw [stepSession_attempt_ok]
              intro k hk
              cases hk
          | false =>
              rw [stepSession_attempt_fail]
              by_cases hlt : j < maxReconnectAttempts
              · rw [if_pos hlt]
                intro k hk
                cases hk
                unfold maxReconnectAttempts at hlt ⊢
                omega
              · rw [if_neg hlt]
                intro k hk
                cases hk
      | failed =>
          rw [stepSession_attempt_failed_state]
          exact hinv
  | pageVisible =>
      rw [stepSession_pageVisible]
      split
      · exact hinv
      · exact hinv

lemma stepSession_autoAttempt {st : SessState} (hinv : sessInv st)
    (e : SessEvent) {n delay : ℕ}
    (h : SessEffect.autoAttempt n delay ∈ (stepSession st e).2) :
    1 ≤ n ∧ n ≤ 10 ∧ delay = 1000 ∧ delay ≤ 5000 := by
  obtain ⟨conn, isC, ra⟩ := st
  cases e with
  | linkLost =>
      cases conn with
      | connected =>
          rw [stepSession_linkLost_connected] at h
          simp only [List.mem_singleton] at h
          cases h
          exact ⟨le_refl 1, by omega, by decide, by decide⟩
      | reconnecting j =>
          rw [stepSession_linkLost_reconnecting] at h
          simp at h
      | failed =>
          rw [stepSession_linkLost_failed] at h
          simp at h
  | attemptResult ok =>
      cases conn with
      | connected =>
          rw [stepSession_attempt_connected] at h
          simp at h
      | reconnecting j =>
          have hj := hinv j rfl
          cases ok with
          | true =>
              rw [stepSession_attempt_ok] at h
              simp at h
          | false =>
              rw [stepSession_attempt_fail] at h
              by_cases hlt : j < maxReconnectAttempts
              · rw [if_pos hlt] at h
                simp only [List.mem_singleton] at h
                cases h
                unfold maxReconnectAttempts at hlt
                exact ⟨by omega, by omega, by decide, by decide⟩
              · rw [if_neg hlt] at h
                simp at h
      | failed =>
          rw [stepSession_attempt_failed_state] at h
          simp at h
  | pageVisible =>
      rw [stepSession_pageVisible] at h
      rcases ifs : (⟨conn, isC, ra⟩ : SessState).isConnected with _ | _ <;>
        rw [ifs] at h <;> simp at h

lemma runSession_autoAttempt :
    ∀ (evs : List SessEvent) (st : SessState), sessInv st →
      ∀ n delay : ℕ,
        SessEffect.autoAttempt n delay ∈ (runSession st evs).2 →
        1 ≤ n ∧ n ≤ 10 ∧ delay = 1000 ∧ delay ≤ 5000 := by
  intro evs
  induction evs with
  | nil =>
      intro st _ n delay h
      simp [runSession] at h
  | cons e es ih =>
      intro st hinv n delay h
      have hcons :
          (runSession st (e :: es)).2
            = (stepSession st e).2 ++ (runSession (stepSession st e).1 es).2 :=
        rfl
      rw [hcons, List.mem_append] at h
      rcases h with h | h
      · exact stepSession_autoAttempt hinv e h
      · exact ih (stepSession st e).1 (stepSession_inv hinv e) n delay h

/-- Claim C6, counterexample.  The bounded part of the claim holds (ten
failed attempts lead to the terminal failed state and the danger
advisory), but its final part — "no further automatic reconnection attempt
ever occurs without an explicit operator action" — is false: from the
failed state, the page merely becoming visible again (the visibilitychange
handler, not an explicit retry; the advisory in fact asks the operator to
refresh the page) immediately issues another socket.connect() call. -/
theorem c6_counterexample :
    (runSession initSessState
        (.linkLost :: List.replicate 10 (.attemptResult false))).1
      = ⟨.failed, false, 10⟩
    ∧ SessEffect.notifyDanger "Connection failed. Please refresh the page."
        ∈ (runSession initSessState
            (.linkLost :: List.replicate 10 (.attemptResult false))).2
    ∧ (stepSession
        (runSession initSessState
          (.linkLost :: List.replicate 10 (.attemptResult false))).1
        .pageVisible).2 = [.manualConnect] := by
  decide

/-- Claim C6, amended: every automatic attempt the engine ever schedules
is numbered at most 10 and delayed 1000 ms (within the 5000 ms cap); the
failure of attempt 10 yields the terminal failed state together with the
danger advisory; in the failed state the engine schedules no further
automatic attempt for any event; but the visibilitychange handler issues a
manual socket.connect() whenever the page becomes visible while
disconnected — including from the failed state — so reconnection can
restart without an explicit operator retry. -/
theorem c6_amended :
    (∀ (evs : List SessEvent) (n delay : ℕ),
      SessEffect.autoAttempt n delay ∈ (runSession initSessState evs).2 →
        1 ≤ n ∧ n ≤ 10 ∧ delay = 1000 ∧ delay ≤ 5000)
    ∧ (stepSession ⟨.reconnecting 10, false, 10⟩ (.attemptResult false)
        = (⟨.failed, false, 10⟩,
           [.notifyDanger "Connection failed. Please refresh the page."]))
    ∧ (∀ (e : SessEvent) (n delay : ℕ),
        SessEffect.autoAttempt n delay ∉ (stepSession ⟨.failed, false, 10⟩ e).2)
    ∧ (stepSession ⟨.failed, false, 10⟩ .pageVisible).2 = [.manualConnect] := by
  refine ⟨?_, by decide, ?_, by decide⟩
  · intro evs n delay h
    exact runSession_autoAttempt evs initSessState
      (by intro k hk; simp [initSessState] at hk) n delay h
  · intro e n delay h
    cases e <;> simp [stepSession] at h

/-- Witness for c6_amended on the first scheduled attempt. -/
theorem c6_amended_witness :
    1 ≤ 1 ∧ 1 ≤ 10 ∧ (1000 : ℕ) = 1000 ∧ (1000 : ℕ) ≤ 5000 :=
  c6_amended.1 [.linkLost] 1 1000 (by decide)

/-! Claim C3: camera auto-center timer. -/

/-- Claim C3, counterexample.  The claim states that every Camera
gesture-end starts a single-shot timer (default 5 s) after which the
centered pan/tilt (80, 40) is emitted once and the axis state resets to
zero.  In the source the camera 'end' handler only logs
("Keep last position, don't reset"): in the run below more than 5 s of
idle time passes between the gesture-end and the next gesture, yet the
emission trace contains no (80, 40) command — only the two throttled move
commands — and after the gesture-end the stored axis state is still 1,
not 0. -/
theorem c3_counterexample :
    (runCamera initCamState
        [.connect, .move 1000 ⟨50, 1, 0⟩, .gestureEnd 1000,
         .move 10000 ⟨50, 1, 0⟩]).2
      = [⟨1000, 125, 40, .fromMoveHandler⟩, ⟨10000, 125, 40, .fromMoveHandler⟩]
    ∧ (runCamera initCamState
        [.connect, .move 1000 ⟨50, 1, 0⟩, .gestureEnd 1000]).1.cameraX = 1 := by
  have hg : gimbalCommand ⟨50, 1, 0⟩ = (125, 40) := gimbalCommand_max_sample
  have hx : normX ⟨50, 1, 0⟩ = 1 := by
    norm_num [normX, normalizedDistance, min_def]
  constructor
  · simp only [runCamera, stepCamera, initCamState]
    norm_num [hg]
  · simp only [runCamera, stepCamera, initCamState]
    norm_num [hx]

/-- Claim C3, amended: the Camera gesture-end performs no action at all —
no timer is started, nothing is emitted and the channel state (including
the stored axis values) is kept unchanged; the gimbal returns to the
centered pan/tilt (80, 40) only through the explicit Center button, which
emits that command exactly once per press while connected and nothing
while disconnected. -/
theorem c3_amended :
    (∀ (st : CamState) (now : ℤ), stepCamera st (.gestureEnd now) = (st, []))
    ∧ (∀ (st : CamState) (now : ℤ), st.isConnected = true →
        stepCamera st (.centerButton now)
          = (st, [⟨now, 80, 40, .fromCenterButton⟩]))
    ∧ (∀ (st : CamState) (now : ℤ), st.isConnected = false →
        stepCamera st (.centerButton now) = (st, [])) := by
  refine ⟨?_, ?_, ?_⟩
  · intro st now
    rfl
  · intro st now h
    simp only [stepCamera]
    rw [if_pos h]
  · intro st now h
    simp only [stepCamera]
    rw [if_neg (by rw [h]; exact Bool.false_ne_true)]

/-- Witness for c3_amended on concrete states. -/
theorem c3_amended_witness :
    stepCamera ⟨true, 0, 1, 0⟩ (.gestureEnd 7) = (⟨true, 0, 1, 0⟩, [])
    ∧ stepCamera ⟨true, 0, 1, 0⟩ (.centerButton 8)
        = (⟨true, 0, 1, 0⟩, [⟨8, 80, 40, .fromCenterButton⟩])
    ∧ stepCamera ⟨false, 0, 1, 0⟩ (.centerButton 9) = (⟨false, 0, 1, 0⟩, []) :=
  ⟨c3_amended.1 ⟨true, 0, 1, 0⟩ 7,
   c3_amended.2.1 ⟨true, 0, 1, 0⟩ 8 rfl,
   c3_amended.2.2 ⟨false, 0, 1, 0⟩ 9 rfl⟩

/-! Claim C1: safe state on disconnect. -/

/-- Claim C1, counterexample.  The claim states that on the transition to
disconnected every control channel is synchronously forced to its safe
state (zero velocity for Movement).  In the run below the gesture sample
drives movementX to 1; the disconnect event then merely clears the
connection flag: the stored movement state is still (1, 0), no zero
command appears anywhere in the trace (its only element is the original
move command), so nothing was forced to a safe state. -/
theorem c1_counterexample :
    (runMove initMoveState
        [.connect, .move 1000 ⟨50, 1, 0⟩, .disconnect]).1.isConnected = false
    ∧ (runMove initMoveState
        [.connect, .move 1000 ⟨50, 1, 0⟩, .disconnect]).1.movementX = 1
    ∧ (runMove initMoveState
        [.connect, .move 1000 ⟨50, 1, 0⟩, .disconnect]).2
      = [⟨1000, 1, 0, true⟩] := by
  have h1 : movementMoveCommand ⟨50, 1, 0⟩ = (1, 0) := by
    unfold movementMoveCommand applyDeadzone
    norm_num [normX, normY, normalizedDistance, min_def]
  refine ⟨?_, ?_, ?_⟩ <;>
    simp only [runMove, stepMove, initMoveState] <;>
      norm_num [h1]

/-- Claim C1, amended: on disconnect the client only clears the connection
flag — it does not force any channel to a safe state and emits nothing.
What does hold: while the connection flag is false, no event makes either
channel emit any command, and every command a channel ever emits is
derived solely from the event that triggers it (the move handlers
recompute the command from the current gesture sample; the movement 'end'
handler emits the constant zero command), so no command derived from
gesture state captured before a disconnect is ever replayed afterwards. -/
theorem c1_amended :
    (∀ (st : MoveState) (e : MoveEvent), st.isConnected = false →
        (stepMove st e).2 = [])
    ∧ (∀ (st : CamState) (e : CamEvent), st.isConnected = false →
        (stepCamera st e).2 = [])
    ∧ (∀ (st : MoveState) (now : ℤ) (g : GestureData),
        (stepMove st (.move now g)).2 = []
        ∨ (stepMove st (.move now g)).2
            = [⟨now, (movementMoveCommand g).1, (movementMoveCommand g).2, true⟩])
    ∧ (∀ (st : MoveState) (now : ℤ),
        (stepMove st (.gestureEnd now)).2 = []
        ∨ (stepMove st (.gestureEnd now)).2 = [⟨now, 0, 0, false⟩])
    ∧ (∀ (st : CamState) (now : ℤ) (g : GestureData),
        (stepCamera st (.move now g)).2 = []
        ∨ (stepCamera st (.move now g)).2
            = [⟨now, (gimbalCommand g).1, (gimbalCommand g).2,
                .fromMoveHandler⟩]) := by
  refine ⟨?_, ?_, ?_, ?_, ?_⟩
  · intro st e h
    cases e <;> simp [stepMove, h] <;> split <;> rfl
  · intro st e h
    cases e <;> simp [stepCamera, h] <;> split <;> rfl
  · intro st now g
    simp only [stepMove]
    split
    · split
      · right
        rfl
      · left
        rfl
    · left
      rfl
  · intro st now
    simp only [stepMove]
    split
    · right
      rfl
    · left
      rfl
  · intro st now g
    simp only [stepCamera]
    split
    · split
      · right
        rfl
      · left
        rfl
    · left
      rfl

/-- Witness for c1_amended on concrete disconnected states. -/
theorem c1_amended_witness :
    (stepMove ⟨false, 0, 1, 0⟩ (.gestureEnd 7)).2 = []
    ∧ (stepCamera ⟨false, 0, 1, 0⟩ (.centerButton 8)).2 = [] :=
  ⟨c1_amended.1 ⟨false, 0, 1, 0⟩ (.gestureEnd 7) rfl,
   c1_amended.2.1 ⟨false, 0, 1, 0⟩ (.centerButton 8) rfl⟩

/-! Claim C2: movement throttling. -/

/-- Separation required between two commands of the throttled movement
'move' handler: if both are move-handler emissions, they are at least
50 ms apart. -/
def moveSep (a b : MoveEmit) : Prop :=
  a.fromMove = true → b.fromMove = true → a.time + 50 ≤ b.time

lemma stepMove_facts (st : MoveState) (e : MoveEvent) :
    st.lastCall ≤ (stepMove st e).1.lastCall
    ∧ List.Pairwise moveSep (stepMove st e).2
    ∧ (∀ em ∈ (stepMove st e).2, em.fromMove = true →
        st.lastCall + 50 ≤ em.time ∧ em.time ≤ (stepMove st e).1.lastCall) := by
  cases e with
  | connect =>
      refine ⟨le_refl _, by simp [stepMove], ?_⟩
      intro em hem
      simp [stepMove] at hem
  | disconnect =>
      refine ⟨le_refl _, by simp [stepMove], ?_⟩
      intro em hem
      simp [stepMove] at hem
  | move now g =>
      simp only [stepMove]
      split
      next hpass =>
        split
        next =>
          refine ⟨by dsimp only; omega, List.pairwise_singleton _ _, ?_⟩
          intro em hem _
          simp only [List.mem_singleton] at hem
          subst hem
          dsimp only
          omega
        next =>
          refine ⟨by dsimp only; omega, by simp, ?_⟩
          intro em hem
          simp at hem
      next hfail =>
        refine ⟨le_refl _, by simp, ?_⟩
        intro em hem
        simp at hem
  | gestureEnd now =>
      simp only [stepMove]
      split
      next =>
        refine ⟨le_refl _, List.pairwise_singleton _ _, ?_⟩
        intro em hem hmv
        simp only [List.mem_singleton] at hem
        subst hem
        simp at hmv
      next =>
        refine ⟨le_refl _, by simp, ?_⟩
        intro em hem
        simp at hem

lemma runMove_throttle_inv (evs : List MoveEvent) : ∀ st : MoveState,
    List.Pairwise moveSep (runMove st evs).2
    ∧ (∀ em ∈ (runMove st evs).2, em.fromMove = true →
        st.lastCall + 50 ≤ em.time)
    ∧ st.lastCall ≤ (runMove st evs).1.lastCall := by
  induction evs with
  | nil =>
      intro st
      refine ⟨List.Pairwise.nil, ?_, le_refl _⟩
      intro em hem
      simp [runMove] at hem
  | cons e es ih =>
      intro st
      obtain ⟨ihP, ihLow, ihMono⟩ := ih (stepMove st e).1
      obtain ⟨sMono, sPair, sElem⟩ := stepMove_facts st e
      have hcons1 : (runMove st (e :: es)).2
          = (stepMove st e).2 ++ (runMove (stepMove st e).1 es).2 := rfl
      have hcons2 : (runMove st (e :: es)).1
          = (runMove (stepMove st e).1 es).1 := rfl
      refine ⟨?_, ?_, ?_⟩
      · rw [hcons1, List.pairwise_append]
        refine ⟨sPair, ihP, ?_⟩
        intro a ha b hb
        intro hmva hmvb
        have hA := sElem a ha hmva
        have hB := ihLow b hb hmvb
        omega
      · rw [hcons1]
        intro em hem hmv
        rcases List.mem_append.mp hem with h | h
        · exact (sElem em h hmv).1
        · have hlow := ihLow em h hmv
          omega
      · rw [hcons2]
        exact le_trans sMono ihMono

/-- Claim C2: in every run of the Movement channel, any two commands
emitted by the throttled 'move' handler are at least 50 ms apart; a
sample arriving before the interval has elapsed is dropped outright (the
state is unchanged and nothing is queued); and the zero command of the
'end' handler bypasses the throttle — on a connected channel it is
emitted immediately for every state, regardless of the time since the
last emission, without touching the throttle state. -/
theorem c2_throttle :
    (∀ evs : List MoveEvent,
        List.Pairwise moveSep (runMove initMoveState evs).2)
    ∧ (∀ (st : MoveState) (now : ℤ), st.isConnected = true →
        stepMove st (.gestureEnd now)
          = ({st with movementX := 0, movementY := 0}, [⟨now, 0, 0, false⟩]))
    ∧ (∀ (st : MoveState) (now : ℤ) (g : GestureData),
        now - st.lastCall < 50 → stepMove st (.move now g) = (st, [])) := by
  refine ⟨?_, ?_, ?_⟩
  · intro evs
    exact (runMove_throttle_inv evs initMoveState).1
  · intro st now h
    simp only [stepMove]
    rw [if_pos h]
  · intro st now g h
    simp only [stepMove]
    rw [if_neg (by omega)]

/-- Witness for c2_throttle: a concrete run, an immediate zero command on
gesture-end, and a dropped sample 20 ms after the last emission. -/
theorem c2_throttle_witness :
    List.Pairwise moveSep
      (runMove initMoveState [.connect, .move 1000 ⟨50, 1, 0⟩]).2
    ∧ stepMove ⟨true, 990, 1, 0⟩ (.gestureEnd 1005)
        = ({(⟨true, 990, 1, 0⟩ : MoveState) with movementX := 0, movementY := 0},
           [⟨1005, 0, 0, false⟩])
    ∧ stepMove ⟨true, 1000, 0, 0⟩ (.move 1020 ⟨50, 1, 0⟩)
        = (⟨true, 1000, 0, 0⟩, []) :=
  ⟨c2_throttle.1 [.connect, .move 1000 ⟨50, 1, 0⟩],
   c2_throttle.2.1 ⟨true, 990, 1, 0⟩ 1005 rfl,
   c2_throttle.2.2 ⟨true, 1000, 0, 0⟩ 1020 ⟨50, 1, 0⟩ (by decide)⟩

end GMAP
